import Mathlib

/-!
Verification development for the 80s-music sortable-table application.

The definitions below are a shallow embedding of `src/script.ts` (the
TypeScript sort controller) and of the song-data module.  DOM side effects
(ARIA attributes, indicator arrows, `history.pushState`) are not observable
data and are omitted; the query string is modelled explicitly as the pair of
the `sort` and `order` parameters, and every function that in the source reads
module-level state (`songs`, `currentSortOrder`, `currentSortColumn`) takes
that state as an explicit argument and returns the updated state.

JavaScript's `Array.prototype.sort` with a comparator is required by the
language specification to be a stable sort; it is embedded as
`List.insertionSort`, which is stable.  `String.prototype.localeCompare` is
modelled as code-point lexicographic comparison (Lean's `≤` on `String`);
none of the claims below depends on locale-specific collation beyond the
relative order of the concrete artist/title strings in the data set, where
the two orders agree.
-/

namespace Music

/-- The `SortColumn` union type of `script.ts`: `'song' | 'artist' | 'year'`. -/
inductive SortColumn where
  | song
  | artist
  | year
deriving DecidableEq

/-- The validated direction values `'asc' | 'desc'` used by `URLSortState`
and by the `newOrder` local of `sortByColumn`. -/
inductive SortDir where
  | asc
  | desc
deriving DecidableEq

/-- The `SortOrder` union type of `script.ts`: `'none' | 'asc' | 'desc'`. -/
inductive SortOrder where
  | none
  | asc
  | desc
deriving DecidableEq

/-- The `Song` interface of `song-data.ts`: `name`, `artist` (strings) and
`year` (number; always an integer in the data). -/
structure Song where
  name : String
  artist : String
  year : Int
deriving DecidableEq

/-- The exported `songs` array of the song-data module (contents of
`songs.json`). -/
def songs : List Song :=
  [⟨"Billie Jean", "Michael Jackson", 1982⟩,
   ⟨"Sweet Child O\x27 Mine", "Guns N\x27 Roses", 1987⟩,
   ⟨"Livin\x27 on a Prayer", "Bon Jovi", 1986⟩]

/-- The module-level mutable state of `script.ts`:
`currentSortOrder` and `currentSortColumn`. -/
structure AppState where
  currentSortOrder : SortOrder
  currentSortColumn : Option SortColumn
deriving DecidableEq

/-- The `URLSortState` interface of `script.ts`. -/
structure URLSortState where
  column : Option SortColumn
  order : SortDir
deriving DecidableEq

/-- The two query parameters of the address bar that the application reads
and writes.  `none` models an absent parameter (`URLSearchParams.get`
returning `null`). -/
structure Query where
  sort : Option String
  order : Option String
deriving DecidableEq

/-- String spelled by the source for each column (the `sort` parameter
value and the `sorting-*` class suffix). -/
def columnName : SortColumn → String
  | SortColumn.song => "song"
  | SortColumn.artist => "artist"
  | SortColumn.year => "year"

/-- String spelled by the source for each direction. -/
def dirName : SortDir → String
  | SortDir.asc => "asc"
  | SortDir.desc => "desc"

/-- Conversion of a validated column string to the `SortColumn` value it
denotes (the `column as SortColumn` cast of `parseSortFromURL`). -/
def strToColumn (s : String) : Option SortColumn :=
  if s = "song" then some SortColumn.song
  else if s = "artist" then some SortColumn.artist
  else if s = "year" then some SortColumn.year
  else none

/-- Conversion of a validated order string to the `SortDir` value it denotes
(the `order as 'asc' | 'desc'` cast of `parseSortFromURL`). -/
def strToDir (s : String) : SortDir :=
  if s = "desc" then SortDir.desc else SortDir.asc

/-- JavaScript `a || d` for a nullable string `a`: the default is used when
the value is `null` or the empty string (both falsy).  Embeds line 59 of
`script.ts`: `const order = params.get('order') || 'asc'`. -/
def jsOrElse (v : Option String) (d : String) : String :=
  match v with
  | none => d
  | some s => if s = "" then d else s

/-- The `validColumns` array of `parseSortFromURL`. -/
def validColumns : List String := ["song", "artist", "year"]

/-- The `validOrders` array of `parseSortFromURL`. -/
def validOrders : List String := ["asc", "desc"]

/-- `parseSortFromURL` of `script.ts` (lines 56-73).  Reads the `sort` and
`order` parameters; the guard `column && validColumns.includes(column) &&
validOrders.includes(order)` (with JavaScript truthiness on `column`)
selects the validated state, and every other input falls through to
`{ column: null, order: 'asc' }`. -/
def parseSortFromURL (q : Query) : URLSortState :=
  let order := jsOrElse q.order "asc"
  match q.sort with
  | some column =>
      if column != "" && validColumns.contains column && validOrders.contains order then
        { column := strToColumn column, order := strToDir order }
      else
        { column := none, order := SortDir.asc }
  | none => { column := none, order := SortDir.asc }

/-- `updateSortURL` of `script.ts` (lines 78-92).  When `column` is non-null
and `order` truthy, sets both query parameters on the current URL; otherwise
deletes both. -/
def updateSortURL (q : Query) (column : Option SortColumn) (order : String) : Query :=
  match column with
  | some c =>
      if order != "" then
        { q with sort := some (columnName c), order := some order }
      else
        { q with sort := none, order := none }
  | none => { q with sort := none, order := none }

/-- Lines 153-157 of `sortByColumn`: the next direction is `desc` exactly
when the clicked column is already the current column with direction `asc`;
otherwise `asc`. -/
def nextOrder (currentSortColumn : Option SortColumn) (currentSortOrder : SortOrder)
    (column : SortColumn) : SortDir :=
  if currentSortColumn = some column ∧ currentSortOrder = SortOrder.asc then
    SortDir.desc
  else
    SortDir.asc

/-- Ordering induced by the `localeCompare` comparator
(`(a, b) => a.localeCompare(b)` sorts by the collation order; a stable
comparator sort by `cmp` places `a` no later than `b` exactly when
`cmp(a, b) ≤ 0`).  The collation is modelled as code-point lexicographic
comparison on the underlying character list. -/
abbrev localeLe (a b : String) : Prop := a.data ≤ b.data

/-- Lines 159-185 of `sortByColumn`: the sorted copy `[...songs].sort(...)`.
The `year` branch compares numerically; the text branch compares the `name`
property for the `song` column and the `artist` property otherwise, via
`localeCompare`.  The comparator direction is flipped for `desc`.  `store`
is the module-level `songs` array the source closes over. -/
def sortedView (column : SortColumn) (newOrder : SortDir) (store : List Song) : List Song :=
  if column = SortColumn.year then
    (if newOrder = SortDir.asc then
        store.insertionSort (fun a b => a.year ≤ b.year)
      else
        store.insertionSort (fun a b => b.year ≤ a.year))
  else if column = SortColumn.song then
    (if newOrder = SortDir.asc then
        store.insertionSort (fun a b => localeLe a.name b.name)
      else
        store.insertionSort (fun a b => localeLe b.name a.name))
  else
    (if newOrder = SortDir.asc then
        store.insertionSort (fun a b => localeLe a.artist b.artist)
      else
        store.insertionSort (fun a b => localeLe b.artist a.artist))

/-- Embedding of `SortDir` into the three-valued `SortOrder` state (the
assignment `currentSortOrder = newOrder` on line 188). -/
def SortDir.toSortOrder : SortDir → SortOrder
  | SortDir.asc => SortOrder.asc
  | SortDir.desc => SortOrder.desc

/-- `sortByColumn` of `script.ts` (lines 130-205), data part: computes the
next direction, sorts a copy of the store, updates the module state
(lines 187-189) and returns the list handed to `renderTable` (line 204).
The early returns for missing DOM elements and the ARIA/indicator updates
are presentation effects outside the data model. -/
def sortByColumn (store : List Song) (st : AppState) (column : SortColumn) :
    AppState × List Song :=
  let newOrder := nextOrder st.currentSortColumn st.currentSortOrder column
  let sortedSongs := sortedView column newOrder store
  (⟨newOrder.toSortOrder, some column⟩, sortedSongs)

/-- The row fragment of `renderTable` (lines 42-46): the template literal
`<tr>...</tr>` with the three field values interpolated verbatim, including
the literal newlines and indentation of the source. -/
def songRow (song : Song) : String :=
  "<tr>\n            <td>" ++ song.name ++
    "</td>\n            <td>" ++ song.artist ++
    "</td>\n            <td>" ++ toString song.year ++
    "</td>\n        </tr>"

/-- `renderTable` of `script.ts` (lines 39-49): the `html` accumulator loop.
The returned string is what is assigned to `tbody.innerHTML`. -/
def renderTable (songsData : List Song) : String :=
  songsData.foldl (fun html song => html ++ songRow song) ""

/-- The `DOMContentLoaded` handler of `script.ts` (lines 241-276), data
part: parses the URL, and either seeds the module state so that the
subsequent `sortByColumn` call toggles to the URL-requested direction
(lines 253-263), or renders the store in load order (lines 264-275).
Returns the final module state and the list handed to `renderTable`. -/
def initialLoad (store : List Song) (q : Query) : AppState × List Song :=
  let urlSort := parseSortFromURL q
  match urlSort.column with
  | some c =>
      let st : AppState :=
        if urlSort.order = SortDir.desc then ⟨SortOrder.asc, some c⟩
        else ⟨SortOrder.desc, none⟩
      sortByColumn store st c
  | none => (⟨SortOrder.none, none⟩, store)

/-- The per-column key ordering used by `sortedView` (`≤` on the year for
the `year` column, code-point `≤` on the compared string property for the
text columns). -/
def colLe : SortColumn → Song → Song → Prop
  | SortColumn.song, a, b => localeLe a.name b.name
  | SortColumn.artist, a, b => localeLe a.artist b.artist
  | SortColumn.year, a, b => a.year ≤ b.year

/-- Key equality for a column: the two records compare equal under the
column's comparator. -/
def sameKey : SortColumn → Song → Song → Prop
  | SortColumn.song, a, b => a.name = b.name
  | SortColumn.artist, a, b => a.artist = b.artist
  | SortColumn.year, a, b => a.year = b.year

/-- The machine state threaded through a session: the module-level `songs`
array together with the sort-controller state.  `sortStep` embeds one
`sortByColumn` call: the source sorts the spread copy `[...songs]`
(lines 163, 167, 177, 181), so the `songs` binding itself is never
reassigned or sorted in place. -/
structure MachState where
  store : List Song
  state : AppState
deriving DecidableEq

/-- One user activation of a column header: runs `sortByColumn` against the
current machine state. -/
def sortStep (ms : MachState) (column : SortColumn) : MachState :=
  ⟨ms.store, (sortByColumn ms.store ms.state column).1⟩

/-- A whole session of column activations after load. -/
def runSorts (ms : MachState) (cols : List SortColumn) : MachState :=
  cols.foldl sortStep ms

/-- Runtime view of a record as the JavaScript engine sees it: each field
may be absent (the property reads as `undefined`).  This models the shape
of untyped data reaching `renderTable` when `songs.json` is malformed;
TypeScript checks the shape only at compile time. -/
structure RawSong where
  name : Option String
  artist : Option String
  year : Option Int
deriving DecidableEq

/-- JavaScript string interpolation of a possibly-absent string property:
`${undefined}` produces the text `undefined`. -/
def jsDisplay : Option String → String
  | none => "undefined"
  | some s => s

/-- JavaScript string interpolation of a possibly-absent numeric property. -/
def jsDisplayInt : Option Int → String
  | none => "undefined"
  | some n => toString n

/-- The row fragment of `renderTable` evaluated under JavaScript runtime
semantics on an untyped record. -/
def rawSongRow (song : RawSong) : String :=
  "<tr>\n            <td>" ++ jsDisplay song.name ++
    "</td>\n            <td>" ++ jsDisplay song.artist ++
    "</td>\n            <td>" ++ jsDisplayInt song.year ++
    "</td>\n        </tr>"

/-- `renderTable` under JavaScript runtime semantics on untyped records. -/
def renderTableRaw (songsData : List RawSong) : String :=
  songsData.foldl (fun html song => html ++ rawSongRow song) ""

/-- Possible outcomes of the load path: either the table body is rendered
with some HTML string, or the page shows an error state.  The source's
`DOMContentLoaded` handler has no branch producing an error state. -/
inductive LoadOutcome where
  | rendered (html : String)
  | errorState
deriving DecidableEq

/-- The load path of `script.ts` on the raw record list, for a URL with no
sort parameters (lines 264-275): the handler validates nothing and renders
the store directly. -/
def initialLoadRaw (store : List RawSong) : LoadOutcome :=
  LoadOutcome.rendered (renderTableRaw store)

/-- Modelled from the spec: the repository ships no runtime validation
routine, so this predicate renders the spec's words "a loaded record
missing a required field" — some required field is absent on the record. -/
def isMalformedRecord (r : RawSong) : Bool :=
  r.name.isNone || r.artist.isNone || r.year.isNone

/-- Two records sharing a year but otherwise distinct, exhibiting a tie for
the `year` comparator. -/
def tieA : Song := ⟨"Take on Me", "a-ha", 1985⟩

/-- Second record of the tie pair. -/
def tieB : Song := ⟨"Everybody Wants to Rule the World", "Tears for Fears", 1985⟩

/-- A record list with a `year` tie. -/
def tieList : List Song := [tieA, tieB]

/-- The raw record of the repository's duck-typing example (`songsb`, where
the second entry spells `artistx` instead of `artist`, so the `artist`
property is absent at runtime). -/
def badRaw : List RawSong := [⟨some "Sweet Child O\x27 Mine", none, some 1987⟩]

/-- Key equality is decidable for every column. -/
instance instDecSameKey (c : SortColumn) (a b : Song) : Decidable (sameKey c a b) :=
  match c with
  | SortColumn.song => inferInstanceAs (Decidable (a.name = b.name))
  | SortColumn.artist => inferInstanceAs (Decidable (a.artist = b.artist))
  | SortColumn.year => inferInstanceAs (Decidable (a.year = b.year))

theorem sorted_insertionSort_key {α β : Type} [LinearOrder β] (k : α → β) (l : List α) :
    List.Sorted (fun a b => k a ≤ k b) (l.insertionSort (fun a b => k a ≤ k b)) := by
  haveI : IsTotal α (fun a b => k a ≤ k b) := ⟨fun a b => le_total (k a) (k b)⟩
  haveI : IsTrans α (fun a b => k a ≤ k b) := ⟨fun _ _ _ h1 h2 => le_trans h1 h2⟩
  exact List.sorted_insertionSort _ l

theorem sorted_insertionSort_key_flip {α β : Type} [LinearOrder β] (k : α → β) (l : List α) :
    List.Sorted (fun a b => k b ≤ k a) (l.insertionSort (fun a b => k b ≤ k a)) := by
  haveI : IsTotal α (fun a b => k b ≤ k a) := ⟨fun a b => le_total (k b) (k a)⟩
  haveI : IsTrans α (fun a b => k b ≤ k a) := ⟨fun _ _ _ h1 h2 => le_trans h2 h1⟩
  exact List.sorted_insertionSort _ l

theorem insertionSort_flip_eq_reverse {α β : Type} [LinearOrder β] (k : α → β) (l : List α)
    (h : l.Pairwise fun a b => k a ≠ k b) :
    l.insertionSort (fun a b => k b ≤ k a) = (l.insertionSort (fun a b => k a ≤ k b)).reverse := by
  have pasc := List.perm_insertionSort (fun a b : α => k a ≤ k b) l
  have pdesc := List.perm_insertionSort (fun a b : α => k b ≤ k a) l
  have sasc := sorted_insertionSort_key k l
  have sdesc := sorted_insertionSort_key_flip k l
  have hsymm : ∀ {x y : α}, k x ≠ k y → k y ≠ k x := fun hxy => Ne.symm hxy
  have hdasc : (l.insertionSort (fun a b => k a ≤ k b)).Pairwise (fun a b => k a ≠ k b) :=
    (List.Perm.pairwise_iff hsymm pasc).mpr h
  have hddesc : (l.insertionSort (fun a b => k b ≤ k a)).Pairwise (fun a b => k a ≠ k b) :=
    (List.Perm.pairwise_iff hsymm pdesc).mpr h
  have sdesc' : (l.insertionSort (fun a b => k b ≤ k a)).Pairwise (fun a b => k b < k a) :=
    List.Pairwise.imp₂ (fun _ _ h1 h2 => lt_of_le_of_ne h1 (Ne.symm h2)) sdesc hddesc
  have sascrev : (l.insertionSort (fun a b => k a ≤ k b)).reverse.Pairwise
      (fun a b => k b < k a) := by
    rw [List.pairwise_reverse]
    exact List.Pairwise.imp₂ (fun _ _ h1 h2 => lt_of_le_of_ne h1 h2) sasc hdasc
  haveI : IsAntisymm α (fun a b => k b < k a) :=
    ⟨fun _ _ h1 h2 => absurd (lt_trans h1 h2) (lt_irrefl _)⟩
  exact List.eq_of_perm_of_sorted
    (pdesc.trans (pasc.symm.trans (List.reverse_perm _).symm)) sdesc' sascrev

theorem pair_sublist_insertionSort_key {α β : Type} [LinearOrder β] (k : α → β) {a b : α}
    {l : List α} (hk : k a = k b) (h : List.Sublist [a, b] l) :
    List.Sublist [a, b] (l.insertionSort (fun x y => k x ≤ k y)) ∧
      List.Sublist [a, b] (l.insertionSort (fun x y => k y ≤ k x)) :=
  ⟨List.pair_sublist_insertionSort (le_of_eq hk) h,
   List.pair_sublist_insertionSort (le_of_eq hk.symm) h⟩

theorem sortedView_perm (c : SortColumn) (d : SortDir) (store : List Song) :
    List.Perm (sortedView c d store) store := by
  cases c <;> cases d <;> exact List.perm_insertionSort _ store

/-- C1: for every column `c`, `sortByColumn c` sets the new direction to
descending if and only if `c` is the currently active sort column with
current direction ascending; in every other case (no active column, a
different active column, or same column currently descending) the new
direction is ascending. -/
theorem sortByColumn_direction_toggle (store : List Song) (st : AppState) (c : SortColumn) :
    ((sortByColumn store st c).1.currentSortOrder = SortOrder.desc ↔
      (st.currentSortColumn = some c ∧ st.currentSortOrder = SortOrder.asc)) ∧
    ((sortByColumn store st c).1.currentSortOrder = SortOrder.asc ↔
      ¬ (st.currentSortColumn = some c ∧ st.currentSortOrder = SortOrder.asc)) := by
  by_cases h : st.currentSortColumn = some c ∧ st.currentSortOrder = SortOrder.asc <;>
    simp [sortByColumn, nextOrder, SortDir.toSortOrder, h]

/-- C2: writing a valid `(c, d)` pair with `updateSortURL` and parsing the
resulting query string with `parseSortFromURL` returns exactly `(c, d)`;
and any query string whose `sort` parameter is not a valid column parses to
the unsorted default `(none, asc)`. -/
theorem updateSortURL_parseSortFromURL_roundtrip (c : SortColumn) (d : SortDir) (q q' : Query)
    (h : ∀ s, q'.sort = some s → s ∉ validColumns) :
    parseSortFromURL (updateSortURL q (some c) (dirName d)) = ⟨some c, d⟩ ∧
      parseSortFromURL q' = ⟨none, SortDir.asc⟩ := by
  constructor
  · cases c <;> cases d <;> rfl
  · unfold parseSortFromURL
    cases hq : q'.sort with
    | none => rfl
    | some s =>
        simp
        exact fun _ hmem _ => absurd hmem (h s hq)

/-- Witness for C2 at `(artist, desc)` and the malformed query
`?sort=bogus`. -/
theorem updateSortURL_parseSortFromURL_roundtrip_witness :
    parseSortFromURL (updateSortURL ⟨none, none⟩ (some SortColumn.artist) (dirName SortDir.desc)) =
        ⟨some SortColumn.artist, SortDir.desc⟩ ∧
      parseSortFromURL ⟨some "bogus", none⟩ = ⟨none, SortDir.asc⟩ :=
  updateSortURL_parseSortFromURL_roundtrip SortColumn.artist SortDir.desc ⟨none, none⟩
    ⟨some "bogus", none⟩ (by intro s hs; cases hs; decide)

/-- C3 counterexample: on `?sort=song&order=bogus` (a valid column with an
invalid non-empty order) `parseSortFromURL` does not keep the column with
the `asc` default — it discards the whole sort state. -/
theorem parse_invalid_order_discards_column_cex :
    parseSortFromURL ⟨some "song", some "bogus"⟩ = ⟨none, SortDir.asc⟩ ∧
      parseSortFromURL ⟨some "song", some "bogus"⟩ ≠ ⟨some SortColumn.song, SortDir.asc⟩ := by
  decide

/-- C3 amended: with a valid `sort` column, an absent or empty `order`
parameter degrades to `asc` keeping the column, but an invalid non-empty
`order` value makes the whole parse fall back to the unsorted default
`(none, asc)`, discarding the valid column. -/
theorem parse_missing_order_defaults_asc (c : SortColumn) (o : String) (h1 : o ≠ "")
    (h2 : o ∉ validOrders) :
    parseSortFromURL ⟨some (columnName c), none⟩ = ⟨some c, SortDir.asc⟩ ∧
      parseSortFromURL ⟨some (columnName c), some ""⟩ = ⟨some c, SortDir.asc⟩ ∧
      parseSortFromURL ⟨some (columnName c), some o⟩ = ⟨none, SortDir.asc⟩ := by
  refine ⟨by cases c <;> rfl, by cases c <;> rfl, ?_⟩
  unfold parseSortFromURL jsOrElse
  simp [h1]
  exact fun _ _ hmem => absurd hmem h2

/-- Witness for C3's amended statement at column `song` and the invalid
order value `bogus`. -/
theorem parse_missing_order_defaults_asc_witness :
    parseSortFromURL ⟨some (columnName SortColumn.song), none⟩ =
        ⟨some SortColumn.song, SortDir.asc⟩ ∧
      parseSortFromURL ⟨some (columnName SortColumn.song), some ""⟩ =
        ⟨some SortColumn.song, SortDir.asc⟩ ∧
      parseSortFromURL ⟨some (columnName SortColumn.song), some "bogus"⟩ =
        ⟨none, SortDir.asc⟩ :=
  parse_missing_order_defaults_asc SortColumn.song "bogus" (by decide) (by decide)

/-- C4: loading with `?sort=c&order=desc` leaves the in-memory state at
`(desc, c)` and renders the store sorted descending by `c` (the rendered
list is the descending `sortedView` and is sorted with respect to the
flipped column ordering); in particular `?sort=artist&order=desc` renders
the artists in reverse-alphabetical order without any click. -/
theorem initialLoad_desc_renders_sorted (store : List Song) (c : SortColumn) :
    initialLoad store ⟨some (columnName c), some "desc"⟩ =
        (⟨SortOrder.desc, some c⟩, sortedView c SortDir.desc store) ∧
      List.Sorted (fun a b => colLe c b a)
        (initialLoad store ⟨some (columnName c), some "desc"⟩).2 ∧
      (initialLoad songs ⟨some "artist", some "desc"⟩).2.map Song.artist =
        ["Michael Jackson", "Guns N\x27 Roses", "Bon Jovi"] := by
  refine ⟨by cases c <;> rfl, ?_, by decide⟩
  cases c
  · exact sorted_insertionSort_key_flip (fun s : Song => s.name.data) store
  · exact sorted_insertionSort_key_flip (fun s : Song => s.artist.data) store
  · exact sorted_insertionSort_key_flip (fun s : Song => s.year) store

/-- C5 counterexample: on a two-record list tied on `year`, the descending
view keeps the original (stable) order, so it is not the reverse of the
ascending view. -/
theorem sortedView_desc_not_reverse_of_ties_cex :
    sortedView SortColumn.year SortDir.desc tieList = [tieA, tieB] ∧
      (sortedView SortColumn.year SortDir.asc tieList).reverse = [tieB, tieA] ∧
      sortedView SortColumn.year SortDir.desc tieList ≠
        (sortedView SortColumn.year SortDir.asc tieList).reverse := by
  decide

/-- C5 amended: the sort is stable — records tied on the key keep their
relative order in both directions — and the descending view is the exact
reverse of the ascending view whenever the key values are pairwise
distinct in the list (which holds for every column of the shipped data);
at ties the reverse identity fails. -/
theorem sortedView_stable_and_reverse_of_distinct (c : SortColumn) (l : List Song) :
    (l.Pairwise (fun a b => ¬ sameKey c a b) →
        sortedView c SortDir.desc l = (sortedView c SortDir.asc l).reverse) ∧
      (∀ a b, sameKey c a b → List.Sublist [a, b] l →
        List.Sublist [a, b] (sortedView c SortDir.asc l) ∧
          List.Sublist [a, b] (sortedView c SortDir.desc l)) := by
  constructor
  · intro hdist
    cases c
    · exact insertionSort_flip_eq_reverse (fun s : Song => s.name.data) l
        (hdist.imp fun hne hdata => hne (String.ext hdata))
    · exact insertionSort_flip_eq_reverse (fun s : Song => s.artist.data) l
        (hdist.imp fun hne hdata => hne (String.ext hdata))
    · exact insertionSort_flip_eq_reverse (fun s : Song => s.year) l hdist
  · intro a b htie hsub
    cases c
    · exact pair_sublist_insertionSort_key (fun s : Song => s.name.data)
        (congrArg String.data htie) hsub
    · exact pair_sublist_insertionSort_key (fun s : Song => s.artist.data)
        (congrArg String.data htie) hsub
    · exact pair_sublist_insertionSort_key (fun s : Song => s.year) htie hsub

/-- Witness for C5's amended statement: the reverse identity on the shipped
data (distinct years), and tie stability on the tied pair. -/
theorem sortedView_stable_and_reverse_of_distinct_witness :
    (sortedView SortColumn.year SortDir.desc songs =
        (sortedView SortColumn.year SortDir.asc songs).reverse) ∧
      (List.Sublist [tieA, tieB] (sortedView SortColumn.year SortDir.asc tieList) ∧
        List.Sublist [tieA, tieB] (sortedView SortColumn.year SortDir.desc tieList)) :=
  ⟨(sortedView_stable_and_reverse_of_distinct SortColumn.year songs).1 (by decide),
   (sortedView_stable_and_reverse_of_distinct SortColumn.year tieList).2 tieA tieB (by decide)
     (List.Sublist.refl _)⟩

/-- C6: for every store, sort state and column, the record list handed to
`renderTable` — by `sortByColumn` after a toggle, or by the load handler
for any query string — is a permutation of the store. -/
theorem view_is_permutation_of_store (store : List Song) (st : AppState) (c : SortColumn)
    (q : Query) :
    List.Perm (sortByColumn store st c).2 store ∧
      List.Perm (initialLoad store q).2 store := by
  constructor
  · exact sortedView_perm c _ store
  · unfold initialLoad
    generalize parseSortFromURL q = u
    obtain ⟨col, ord⟩ := u
    cases col with
    | none => exact List.Perm.refl store
    | some c2 => exact sortedView_perm c2 _ store

/-- C7: from the unsorted initial state, toggling a column twice produces
exactly the descending sorted view of the store for that column. -/
theorem double_toggle_equals_desc (store : List Song) (c : SortColumn) :
    (sortByColumn store (sortByColumn store ⟨SortOrder.none, none⟩ c).1 c).2 =
      sortedView c SortDir.desc store := by
  cases c <;> rfl

/-- C8: a session of `sortByColumn` calls, in any order, never changes the
`songs` array: the store after any sequence of toggles is element-for-element
the store at load (every sort operates on the spread copy `[...songs]`). -/
theorem store_never_mutated (store : List Song) (st : AppState) (cols : List SortColumn) :
    (runSorts ⟨store, st⟩ cols).store = store := by
  induction cols generalizing st with
  | nil => rfl
  | cons c cols ih => exact ih _

/-- C9 counterexample: a record list whose record is missing the `artist`
field is malformed, yet the load path does not produce an error state — it
renders the row with the text `undefined` in the artist cell. -/
theorem malformed_load_renders_cex :
    badRaw.any isMalformedRecord = true ∧
      initialLoadRaw badRaw ≠ LoadOutcome.errorState ∧
      initialLoadRaw badRaw =
        LoadOutcome.rendered
          ("<tr>\n            <td>Sweet Child O\x27 Mine</td>\n            <td>undefined</td>\n            <td>1987</td>\n        </tr>") := by
  decide

/-- C9 amended: the load path never fails fast — it has no error state and
renders every record list as-is; a missing field is displayed as the text
`undefined` in its cell, and out-of-range years are rendered verbatim
without coercion. -/
theorem malformed_load_no_fail_fast (store : List RawSong) (a : Option String) (y : Option Int) :
    initialLoadRaw store ≠ LoadOutcome.errorState ∧
      initialLoadRaw store = LoadOutcome.rendered (renderTableRaw store) ∧
      rawSongRow ⟨none, a, y⟩ =
        "<tr>\n            <td>undefined</td>\n            <td>" ++ jsDisplay a ++
          "</td>\n            <td>" ++ jsDisplayInt y ++ "</td>\n        </tr>" ∧
      jsDisplayInt (some 1999) = "1999" :=
  ⟨fun h => LoadOutcome.noConfusion h, rfl, rfl, rfl⟩

/-- C10: `renderTable` produces exactly the concatenation, in list order, of
one `<tr>` fragment per record with the `name`, `artist` and `year` values
interpolated verbatim (no escaping or transformation). -/
theorem renderTable_concatenates_rows_verbatim (songsData : List Song) :
    renderTable songsData =
      String.join (songsData.map fun song =>
        "<tr>\n            <td>" ++ song.name ++ "</td>\n            <td>" ++ song.artist ++
          "</td>\n            <td>" ++ toString song.year ++ "</td>\n        </tr>") := by
  unfold renderTable String.join
  rw [List.foldl_map]
  rfl

end Music
